import Mathlib

/-!
Shallow embedding of `src/install.py` (abrown/install-wasi-sdk) together with
theorems settling the spec claims about it.

The script is a linear pipeline: version/tag normalization
(`calculate_version_and_tag`), URL construction (`calculate_artifact_url`),
download + tar extraction with a strip-components rule (`install`), and
append-only writes of key=value lines to output files (`write_variables`),
wired up by `main` and an `__main__` block that reads environment-variable
overrides.  Network and filesystem effects are modelled by explicit oracles
and an explicit filesystem state.
-/

namespace InstallWasiSdk

/-- Python `s.rstrip(chars)`: removes from the right end of `s` every
character that belongs to the character *set* `chars` (NOT the suffix
string `chars`).  Used at src/install.py:47 as `version.rstrip('.0')`. -/
def pyRstrip (s : String) (chars : List Char) : String :=
  String.mk ((s.data.reverse.dropWhile (fun c => chars.contains c)).reverse)

/-- Python `s.lower()` restricted to ASCII (all inputs appearing in the
script and its claims are ASCII).  Used at src/install.py:69 and :155. -/
def pyLower (s : String) : String :=
  String.mk (s.data.map Char.toLower)

/-- Python truthiness of an `Optional[str]`: `None` and `''` are falsy.
Used by `if output_file:` / `if env_file:` at src/install.py:105 and :113. -/
def pyTruthy : Option String → Bool
  | none => false
  | some s => !(s = "")

/-- Embedding of `calculate_version_and_tag` (src/install.py:32-53).
The network call `retrieve_latest_tag()` (line 44) is abstracted by the
oracle `latestTag`: `some t` models GitHub answering with tag `t`, `none`
models a network/parse failure (fatal, hence `Option` result).
Line 47 is Python `version.rstrip('.0')`, a character-set strip. -/
def calculate_version_and_tag (latestTag : Option String) (version : String) :
    Option (String × String) :=
  let vt : Option (String × String) :=
    if version = "latest" then
      latestTag.map (fun tag => (tag.replace "wasi-sdk-" "", tag))
    else
      some (version, "wasi-sdk-" ++ pyRstrip version ['.', '0'])
  vt.map (fun p => (if p.1.data.contains '.' then p.1 else p.1 ++ ".0", p.2))

/-- Embedding of `calculate_artifact_url` (src/install.py:56-70): a pure
function of version, tag, architecture and platform name. -/
def calculate_artifact_url (version tag arch os : String) : String :=
  let base := "https://github.com/WebAssembly/wasi-sdk/releases/download"
  let os := if os = "Darwin" then "macos" else pyLower os
  base ++ "/" ++ tag ++ "/wasi-sdk-" ++ version ++ "-" ++ arch ++ "-" ++ os ++ ".tar.gz"

/-- Python `s.split(sep)` for a one-character separator, on the character
list: splitting on every occurrence of `sep`, keeping empty groups
(`"".split('/') = ['']`, `"root/".split('/') = ['root', '']`). -/
def splitOnChar (sep : Char) : List Char → List (List Char)
  | [] => [[]]
  | c :: rest =>
    match splitOnChar sep rest with
    | [] => [[]]
    | g :: gs => if c = sep then [] :: g :: gs else (c :: g) :: gs

/-- Python `s.split(sep)` for a one-character separator string.
Used at src/install.py:85 as `member.name.split('/')`. -/
def pySplit (s : String) (sep : Char) : List String :=
  (splitOnChar sep s.data).map String.mk

/-- Python `sep.join(parts)`.  Used at src/install.py:87 as
`'/'.join(parts[1:])`. -/
def joinWith (sep : String) : List String → String
  | [] => ""
  | [x] => x
  | x :: y :: xs => x ++ sep ++ joinWith sep (y :: xs)

/-- The strip-components rewrite of src/install.py:87: drop the first `/`
separated path segment of an archive member name and rejoin the rest. -/
def strip_first_component (name : String) : String :=
  joinWith "/" ((pySplit name '/').drop 1)

/-- The destination-relative paths written by the extraction loop of
`install` (src/install.py:83-88): each member whose name has more than one
`/`-separated segment is extracted at its stripped name; members with a
single segment are skipped.  (The stdlib `filter='tar'` extraction filter
only sanitises hostile names such as absolute paths; it is the identity on
the well-formed names considered here and is not modelled.) -/
def extracted_paths (members : List String) : List String :=
  members.filterMap (fun m =>
    if 1 < (pySplit m '/').length then some (strip_first_component m) else none)

/-- State of `install` (src/install.py:73-90): whether the temporary
download file still exists, and which members have been extracted so far
(in order). -/
structure InstallState where
  tempExists : Bool
  extracted : List String
deriving DecidableEq

/-- The extraction loop of `install` (src/install.py:83-88).  `fails m`
models `tar.extract` raising an exception on member `m` (disk full,
permissions, corrupt entry, ...); an exception propagates immediately,
freezing the state (`Except.error`). -/
def extract_loop (fails : String → Bool) :
    List String → InstallState → Except InstallState InstallState
  | [], st => Except.ok st
  | m :: rest, st =>
    if 1 < (pySplit m '/').length then
      if fails m then Except.error st
      else extract_loop fails rest
        { st with extracted := st.extracted ++ [strip_first_component m] }
    else extract_loop fails rest st

/-- Embedding of `install` (src/install.py:73-90) after a successful
download: the temporary file exists (line 78-79), the destination directory
is created, the extraction loop runs, and only after the loop completes is
the temporary file unlinked (line 90).  An exception inside the loop
propagates out of `install` before reaching the `os.unlink` call. -/
def install_run (members : List String) (fails : String → Bool) :
    Except InstallState InstallState :=
  match extract_loop fails members { tempExists := true, extracted := [] } with
  | Except.error st => Except.error st
  | Except.ok st => Except.ok { st with tempExists := false }

/-- Concrete archive used to witness the extraction claims. -/
def demo_members : List String := ["root/a/b.txt", "root/c.txt"]

/-- The state `install_run` reaches on `demo_members` when no member fails. -/
def demo_ok_state : InstallState :=
  { tempExists := false, extracted := ["a/b.txt", "c.txt"] }

/-- Filesystem state seen by `write_variables`: which paths are regular
files, which are directories, and the lines held by each text file. -/
structure FS where
  isFile : String → Bool
  isDir : String → Bool
  content : String → List String

/-- `f.write(line)` on a file opened with `open(path, 'a')`: append one line
to `path`, leave every other file unchanged. -/
def appendLine (fs : FS) (path line : String) : FS :=
  { fs with content := fun p => if p = path then fs.content p ++ [line] else fs.content p }

/-- The Python exceptions `write_variables` can raise: a failed `assert`
(lines 99 and 103) and the `NameError` raised when the free module-global
`version` (lines 109 and 117) is unbound. -/
inductive PyErr where
  | assertionError : String → PyErr
  | nameError : String → PyErr
deriving DecidableEq

/-- Embedding of `write_variables` (src/install.py:93-119).

`globalVersion` models the module-global `version` read by the f-strings at
lines 109 and 117: it is a *free* variable of the function, bound only by
the `__main__` block at line 153 (`none` models the module being imported
without running `__main__`, in which case evaluating the f-string raises
`NameError`).  An exception carries the filesystem state at the moment it
is raised: a failed assert happens before any write; the `NameError` at
line 109 happens after the line-108 write has been issued inside the
`with open(..., 'a')` block, which flushes on exit.  Python truthiness of
`if output_file:` / `if env_file:` (lines 105, 113) treats `None` and the
empty string as falsy. -/
def write_variables (globalVersion : Option String) (install_dir : String)
    (output_file env_file : Option String) (fs : FS) : Except (PyErr × FS) FS :=
  let clang_path := install_dir ++ "/bin/clang"
  if fs.isFile clang_path = false then
    Except.error (PyErr.assertionError ("clang not found at " ++ clang_path), fs)
  else
    let sysroot_path := install_dir ++ "/share/wasi-sysroot"
    if fs.isDir sysroot_path = false then
      Except.error (PyErr.assertionError ("sysroot not found at " ++ sysroot_path), fs)
    else
      let step1 : Except (PyErr × FS) FS :=
        match output_file with
        | none => Except.ok fs
        | some f =>
          if f = "" then Except.ok fs
          else
            let fs1 := appendLine fs f ("wasi-sdk-path=" ++ install_dir)
            match globalVersion with
            | none => Except.error (PyErr.nameError "version", fs1)
            | some v =>
              let fs2 := appendLine fs1 f ("wasi-sdk-version=" ++ v)
              let fs3 := appendLine fs2 f ("clang-path=" ++ clang_path)
              Except.ok (appendLine fs3 f ("sysroot-path=" ++ sysroot_path))
      match step1 with
      | Except.error e => Except.error e
      | Except.ok fsa =>
        match env_file with
        | none => Except.ok fsa
        | some f =>
          if f = "" then Except.ok fsa
          else
            let fs1 := appendLine fsa f ("WASI_SDK_PATH=" ++ install_dir)
            match globalVersion with
            | none => Except.error (PyErr.nameError "version", fs1)
            | some v =>
              let fs2 := appendLine fs1 f ("WASI_SDK_VERSION=" ++ v)
              let fs3 := appendLine fs2 f
                ("CC=" ++ clang_path ++ " --sysroot=" ++ sysroot_path)
              Except.ok (appendLine fs3 f
                ("CXX=" ++ clang_path ++ "++ --sysroot=" ++ sysroot_path))

/-- The CLI flag values parsed by argparse (src/install.py:131-145), after
defaulting: `--version` defaults to "latest", `--install-dir` to ".",
`--output-file` and `--env-file` to `None`. -/
structure Args where
  version : String
  install_dir : String
  output_file : Option String
  env_file : Option String

/-- The effective configuration after the environment-variable overrides. -/
structure Config where
  version : String
  install_dir : String
  add_to_path : Bool
  output_file : Option String
  env_file : Option String

/-- Embedding of the override block of `__main__` (src/install.py:152-159):
`INPUT_VERSION` / `INPUT_INSTALL_DIR` override the corresponding flags when
present; `INPUT_ADD_TO_PATH` lowercased equal to "true" redirects the
output/env file paths to `GITHUB_PATH` / `GITHUB_ENV`, falling back to the
flags when those are absent (`os.getenv(name, default)`). -/
def resolve_config (env : String → Option String) (args : Args) : Config :=
  let version := (env "INPUT_VERSION").getD args.version
  let install_dir := (env "INPUT_INSTALL_DIR").getD args.install_dir
  let add_to_path := pyLower ((env "INPUT_ADD_TO_PATH").getD "false") == "true"
  let output_file :=
    if add_to_path then (env "GITHUB_PATH").or args.output_file else args.output_file
  let env_file :=
    if add_to_path then (env "GITHUB_ENV").or args.env_file else args.env_file
  { version := version, install_dir := install_dir, add_to_path := add_to_path,
    output_file := output_file, env_file := env_file }

/-- Embedding of `main` (src/install.py:122-127) restricted to the data flow
of the version string.  Line 123 rebinds only main's *local* parameter
`version` to the normalized version; the module-global `version` that
`write_variables` reads (see `write_variables`) keeps the raw
pre-normalization value bound at line 153, so it is passed here as
`some rawVersion`.  The download/extraction side effects of line 126 touch
only the install directory tree and are modelled separately by
`install_run`; `fs` is the filesystem state `write_variables` then sees. -/
def main_run (latestTag : Option String) (arch osName : String)
    (rawVersion : String) (install_dir : String)
    (output_file env_file : Option String) (fs : FS) :
    Option (Except (PyErr × FS) FS) :=
  (calculate_version_and_tag latestTag rawVersion).map (fun vt =>
    let _url := calculate_artifact_url vt.1 vt.2 arch osName
    write_variables (some rawVersion) install_dir output_file env_file fs)

/-- A filesystem on which both post-install assertions pass. -/
def demo_fs : FS :=
  { isFile := fun _ => true, isDir := fun _ => true, content := fun _ => [] }

/-- A filesystem on which `bin/clang` is missing but the sysroot exists. -/
def demo_fs_noclang : FS :=
  { isFile := fun _ => false, isDir := fun _ => true, content := fun _ => [] }

/-- The result of a successful `write_variables` run on `demo_fs`. -/
def demo_wv : Except (PyErr × FS) FS :=
  write_variables (some "25") "/i" (some "out") (some "env") demo_fs

/-- The filesystem produced by `demo_wv`. -/
def demo_fs2 : FS :=
  match demo_wv with
  | Except.ok f => f
  | Except.error _ => demo_fs

/-- A concrete environment binding only `INPUT_VERSION`. -/
def demo_env : String → Option String :=
  fun k => if k = "INPUT_VERSION" then some "25" else none

/-- Concrete CLI defaults (the argparse defaults of src/install.py:131-145). -/
def demo_args : Args :=
  { version := "latest", install_dir := ".", output_file := none, env_file := none }

end InstallWasiSdk

namespace InstallWasiSdk

/-- C1: The claim states that the tag is built by removing exactly a trailing
".0" suffix, so that "20.0" would give tag "wasi-sdk-20".  The code instead
uses `version.rstrip('.0')`, which strips all trailing characters in the set
set of a dot and a zero: on input "20.0" it produces tag "wasi-sdk-2". -/
theorem c1_rstrip_is_charset_not_suffix :
    calculate_version_and_tag none "20.0" = some ("20.0", "wasi-sdk-2") ∧
    "wasi-sdk-2" ≠ "wasi-sdk-20" := by
  constructor
  · decide
  · decide

/-- C2: The claimed invariant — tag equals "wasi-sdk-" followed by the same
numeric identifier as the version, possibly with the trailing ".0" removed —
fails on input "20.0": the code returns version "20.0" with tag
"wasi-sdk-2", whose identifier is neither "20.0" nor "20". -/
theorem c2_invariant_fails_on_20_0 :
    calculate_version_and_tag none "20.0" = some ("20.0", "wasi-sdk-2") ∧
    ("wasi-sdk-2" : String) ≠ "wasi-sdk-" ++ "20.0" ∧
    ("wasi-sdk-2" : String) ≠ "wasi-sdk-" ++ "20" := by
  refine ⟨by decide, by decide, by decide⟩

/-- C3: the three fixed test vectors of the Version Resolver (the doctests at
src/install.py:36-41): "25" gives ("25.0", "wasi-sdk-25"), "25.0" gives
("25.0", "wasi-sdk-25"), "25.1" gives ("25.1", "wasi-sdk-25.1"). -/
theorem c3_resolver_test_vectors :
    calculate_version_and_tag none "25" = some ("25.0", "wasi-sdk-25") ∧
    calculate_version_and_tag none "25.0" = some ("25.0", "wasi-sdk-25") ∧
    calculate_version_and_tag none "25.1" = some ("25.1", "wasi-sdk-25.1") := by
  refine ⟨by decide, by decide, by decide⟩

/-- C4: the URL builder maps platform "Darwin" to "macos" and lowercases any
other platform name, and satisfies the two fixed test vectors
(src/install.py:60-63). -/
theorem c4_url_builder :
    calculate_artifact_url "25.0" "wasi-sdk-25" "x86_64" "Linux" =
      "https://github.com/WebAssembly/wasi-sdk/releases/download/wasi-sdk-25/wasi-sdk-25.0-x86_64-linux.tar.gz" ∧
    calculate_artifact_url "25.1" "wasi-sdk-25.1" "arm64" "Darwin" =
      "https://github.com/WebAssembly/wasi-sdk/releases/download/wasi-sdk-25.1/wasi-sdk-25.1-arm64-macos.tar.gz" ∧
    (∀ v t a, calculate_artifact_url v t a "Darwin" =
      "https://github.com/WebAssembly/wasi-sdk/releases/download" ++ "/" ++ t ++
        "/wasi-sdk-" ++ v ++ "-" ++ a ++ "-" ++ "macos" ++ ".tar.gz") ∧
    (∀ v t a o, o ≠ "Darwin" → calculate_artifact_url v t a o =
      "https://github.com/WebAssembly/wasi-sdk/releases/download" ++ "/" ++ t ++
        "/wasi-sdk-" ++ v ++ "-" ++ a ++ "-" ++ pyLower o ++ ".tar.gz") := by
  refine ⟨by decide, by decide, fun v t a => rfl, fun v t a o ho => ?_⟩
  simp only [calculate_artifact_url, if_neg ho]

/-- C4 witness: the lowercasing branch applied at the concrete platform
"Windows". -/
theorem c4_url_builder_witness :
    calculate_artifact_url "1.0" "wasi-sdk-1" "x86_64" "Windows" =
      "https://github.com/WebAssembly/wasi-sdk/releases/download" ++ "/" ++
        "wasi-sdk-1" ++ "/wasi-sdk-" ++ "1.0" ++ "-" ++ "x86_64" ++ "-" ++
        pyLower "Windows" ++ ".tar.gz" :=
  c4_url_builder.2.2.2 "1.0" "wasi-sdk-1" "x86_64" "Windows" (by decide)

end InstallWasiSdk

namespace InstallWasiSdk

lemma extracted_paths_nil : extracted_paths [] = [] := rfl

lemma extracted_paths_cons_pos (m : String) (ms : List String)
    (h : 1 < (pySplit m '/').length) :
    extracted_paths (m :: ms) = strip_first_component m :: extracted_paths ms := by
  simp [extracted_paths, List.filterMap_cons, if_pos h]

lemma extracted_paths_cons_neg (m : String) (ms : List String)
    (h : ¬ 1 < (pySplit m '/').length) :
    extracted_paths (m :: ms) = extracted_paths ms := by
  simp [extracted_paths, List.filterMap_cons, if_neg h]

lemma extract_loop_ok (fails : String → Bool) (ms : List String)
    (st st' : InstallState) (h : extract_loop fails ms st = Except.ok st') :
    st'.tempExists = st.tempExists ∧
    st'.extracted = st.extracted ++ extracted_paths ms := by
  induction ms generalizing st with
  | nil =>
    simp only [extract_loop] at h
    cases h
    simp [extracted_paths_nil]
  | cons m rest ih =>
    simp only [extract_loop] at h
    by_cases hlen : 1 < (pySplit m '/').length
    · rw [if_pos hlen] at h
      by_cases hf : fails m
      · simp [hf] at h
      · rw [if_neg (by simp [hf])] at h
        obtain ⟨h1, h2⟩ := ih _ h
        refine ⟨h1, ?_⟩
        rw [h2, extracted_paths_cons_pos m rest hlen]
        simp
    · rw [if_neg hlen] at h
      obtain ⟨h1, h2⟩ := ih _ h
      exact ⟨h1, by rw [h2, extracted_paths_cons_neg m rest hlen]⟩

lemma extract_loop_error (fails : String → Bool) (ms : List String)
    (st st' : InstallState) (h : extract_loop fails ms st = Except.error st') :
    st'.tempExists = st.tempExists ∧
    ∃ pre m suf, ms = pre ++ m :: suf ∧ fails m = true ∧
      1 < (pySplit m '/').length ∧
      st'.extracted = st.extracted ++ extracted_paths pre := by
  induction ms generalizing st with
  | nil => simp [extract_loop] at h
  | cons m rest ih =>
    simp only [extract_loop] at h
    by_cases hlen : 1 < (pySplit m '/').length
    · rw [if_pos hlen] at h
      by_cases hf : fails m
      · rw [if_pos hf] at h
        cases h
        exact ⟨rfl, [], m, rest, rfl, hf, hlen, by simp [extracted_paths_nil]⟩
      · rw [if_neg (by simp [hf])] at h
        obtain ⟨h1, pre, m2, suf, hsplit, hf2, hlen2, hex⟩ := ih _ h
        refine ⟨h1, m :: pre, m2, suf, by simp [hsplit], hf2, hlen2, ?_⟩
        rw [hex, extracted_paths_cons_pos m pre hlen]
        simp
    · rw [if_neg hlen] at h
      obtain ⟨h1, pre, m2, suf, hsplit, hf2, hlen2, hex⟩ := ih _ h
      refine ⟨h1, m :: pre, m2, suf, by simp [hsplit], hf2, hlen2, ?_⟩
      rw [hex, extracted_paths_cons_neg m pre hlen]

/-- C5: every member whose path has more than one segment is written at its
path with the first segment removed; members with a single segment are
skipped; and nothing else is written.  In particular the archive
["root/a/b.txt", "root/c.txt"] produces exactly ["a/b.txt", "c.txt"]. -/
theorem c5_strip_components :
    extracted_paths ["root/a/b.txt", "root/c.txt"] = ["a/b.txt", "c.txt"] ∧
    (∀ ms m, m ∈ ms → 1 < (pySplit m '/').length →
      strip_first_component m ∈ extracted_paths ms) ∧
    (∀ ms p, p ∈ extracted_paths ms →
      ∃ m, m ∈ ms ∧ 1 < (pySplit m '/').length ∧ p = strip_first_component m) := by
  refine ⟨by decide, ?_, ?_⟩
  · intro ms m hm hlen
    simp only [extracted_paths, List.mem_filterMap]
    exact ⟨m, hm, by rw [if_pos hlen]⟩
  · intro ms p hp
    simp only [extracted_paths, List.mem_filterMap] at hp
    obtain ⟨m, hm, hf⟩ := hp
    by_cases h : 1 < (pySplit m '/').length
    · rw [if_pos h] at hf
      exact ⟨m, hm, h, (Option.some.inj hf).symm⟩
    · rw [if_neg h] at hf
      cases hf

/-- C5 witness: the two general parts applied on the concrete archive. -/
theorem c5_strip_components_witness :
    strip_first_component "root/a/b.txt" ∈ extracted_paths demo_members ∧
    ∃ m, m ∈ demo_members ∧ 1 < (pySplit m '/').length ∧
      "c.txt" = strip_first_component m :=
  ⟨c5_strip_components.2.1 demo_members "root/a/b.txt" (by decide) (by decide),
   c5_strip_components.2.2 demo_members "c.txt" (by decide)⟩

/-- C8: when no extraction step fails, `install` deletes the temporary file
after the loop and the destination holds exactly the stripped members; when
an extraction step fails mid-loop, the exception propagates before
`os.unlink`, so the temporary file is left undeleted and the destination
holds exactly the members extracted before the failure (no rollback). -/
theorem c8_temp_file_lifecycle :
    (∀ members fails st, install_run members fails = Except.ok st →
      st.tempExists = false ∧ st.extracted = extracted_paths members) ∧
    (∀ members fails st, install_run members fails = Except.error st →
      st.tempExists = true ∧
      ∃ pre m suf, members = pre ++ m :: suf ∧ fails m = true ∧
        1 < (pySplit m '/').length ∧ st.extracted = extracted_paths pre) := by
  constructor
  · intro members fails st h
    unfold install_run at h
    cases hloop : extract_loop fails members { tempExists := true, extracted := [] } with
    | error st2 => rw [hloop] at h; cases h
    | ok st2 =>
      rw [hloop] at h
      cases h
      obtain ⟨h1, h2⟩ := extract_loop_ok fails members _ _ hloop
      exact ⟨rfl, by simpa using h2⟩
  · intro members fails st h
    unfold install_run at h
    cases hloop : extract_loop fails members { tempExists := true, extracted := [] } with
    | ok st2 => rw [hloop] at h; cases h
    | error st2 =>
      rw [hloop] at h
      cases h
      obtain ⟨h1, pre, m, suf, hsplit, hf, hlen, hex⟩ :=
        extract_loop_error fails members _ _ hloop
      exact ⟨h1, pre, m, suf, hsplit, hf, hlen, by simpa using hex⟩

/-- C8 witness: the success branch evaluated on the concrete archive. -/
theorem c8_temp_file_lifecycle_witness :
    demo_ok_state.tempExists = false ∧
    demo_ok_state.extracted = extracted_paths demo_members :=
  c8_temp_file_lifecycle.1 demo_members (fun _ => false) demo_ok_state rfl

end InstallWasiSdk

namespace InstallWasiSdk

/-- C6: `write_variables` fails with the clang assertion whenever `bin/clang`
is missing under the install directory (regardless of the sysroot), fails
with an assertion whenever `share/wasi-sysroot` is absent, and in both
cases the error state is the unchanged filesystem (no file written); it
succeeds only when both expected paths exist. -/
theorem c6_writer_asserts :
    (∀ fs d out env gv, fs.isFile (d ++ "/bin/clang") = false →
      write_variables gv d out env fs =
        Except.error
          (PyErr.assertionError ("clang not found at " ++ (d ++ "/bin/clang")), fs)) ∧
    (∀ fs d out env gv, fs.isDir (d ++ "/share/wasi-sysroot") = false →
      ∃ msg, write_variables gv d out env fs =
        Except.error (PyErr.assertionError msg, fs)) ∧
    (∀ fs d out env gv fs2, write_variables gv d out env fs = Except.ok fs2 →
      fs.isFile (d ++ "/bin/clang") = true ∧
      fs.isDir (d ++ "/share/wasi-sysroot") = true) := by
  refine ⟨?_, ?_, ?_⟩
  · intro fs d out env gv hF
    simp only [write_variables]
    rw [if_pos hF]
  · intro fs d out env gv hD
    simp only [write_variables]
    by_cases hF : fs.isFile (d ++ "/bin/clang") = false
    · rw [if_pos hF]
      exact ⟨"clang not found at " ++ (d ++ "/bin/clang"), rfl⟩
    · rw [if_neg hF, if_pos hD]
      exact ⟨"sysroot not found at " ++ (d ++ "/share/wasi-sysroot"), rfl⟩
  · intro fs d out env gv fs2 h
    simp only [write_variables] at h
    by_cases hF : fs.isFile (d ++ "/bin/clang") = false
    · rw [if_pos hF] at h
      cases h
    · rw [if_neg hF] at h
      by_cases hD : fs.isDir (d ++ "/share/wasi-sysroot") = false
      · rw [if_pos hD] at h
        cases h
      · exact ⟨Bool.eq_true_of_not_eq_false hF, Bool.eq_true_of_not_eq_false hD⟩

/-- C6 witness: the clang assertion fires on a filesystem where the sysroot
directory exists but `bin/clang` does not. -/
theorem c6_writer_asserts_witness :
    write_variables none "/i" none none demo_fs_noclang =
      Except.error
        (PyErr.assertionError ("clang not found at " ++ ("/i" ++ "/bin/clang")),
         demo_fs_noclang) :=
  c6_writer_asserts.1 demo_fs_noclang "/i" none none none rfl

end InstallWasiSdk

namespace InstallWasiSdk

lemma appendLine_content_same (fs : FS) (f l : String) :
    (appendLine fs f l).content f = fs.content f ++ [l] := by
  simp [appendLine]

lemma appendLine_content_other (fs : FS) (f l p : String) (h : p ≠ f) :
    (appendLine fs f l).content p = fs.content p := by
  simp [appendLine, h]

/-- C7: a successful `write_variables` call is append-only: the previous
content of the output file and of the env file is preserved as a prefix and
the new key=value lines (including the CC line embedding the clang path and
a --sysroot flag) are appended after it; every other file is untouched, and
when both file arguments are None nothing changes at all. -/
theorem c7_append_only :
    (∀ v d fo fe fs fs', fo ≠ "" → fe ≠ "" → fo ≠ fe →
      write_variables (some v) d (some fo) (some fe) fs = Except.ok fs' →
      fs'.content fo = fs.content fo ++
        ["wasi-sdk-path=" ++ d, "wasi-sdk-version=" ++ v,
         "clang-path=" ++ (d ++ "/bin/clang"),
         "sysroot-path=" ++ (d ++ "/share/wasi-sysroot")] ∧
      fs'.content fe = fs.content fe ++
        ["WASI_SDK_PATH=" ++ d, "WASI_SDK_VERSION=" ++ v,
         "CC=" ++ (d ++ "/bin/clang") ++ " --sysroot=" ++ (d ++ "/share/wasi-sysroot"),
         "CXX=" ++ (d ++ "/bin/clang") ++ "++ --sysroot=" ++ (d ++ "/share/wasi-sysroot")] ∧
      (∀ p, p ≠ fo → p ≠ fe → fs'.content p = fs.content p)) ∧
    (∀ v d fs fs', write_variables (some v) d none none fs = Except.ok fs' →
      fs' = fs) := by
  constructor
  · intro v d fo fe fs fs' hfo hfe hne h
    simp only [write_variables] at h
    by_cases hF : fs.isFile (d ++ "/bin/clang") = false
    · rw [if_pos hF] at h
      cases h
    · rw [if_neg hF] at h
      by_cases hD : fs.isDir (d ++ "/share/wasi-sysroot") = false
      · rw [if_pos hD] at h
        cases h
      · rw [if_neg hD] at h
        simp only [if_neg hfo, if_neg hfe] at h
        cases h
        refine ⟨?_, ?_, ?_⟩
        · simp [appendLine, hne]
        · simp [appendLine, Ne.symm hne]
        · intro p hp1 hp2
          simp [appendLine, hp1, hp2]
  · intro v d fs fs' h
    simp only [write_variables] at h
    by_cases hF : fs.isFile (d ++ "/bin/clang") = false
    · rw [if_pos hF] at h
      cases h
    · rw [if_neg hF] at h
      by_cases hD : fs.isDir (d ++ "/share/wasi-sysroot") = false
      · rw [if_pos hD] at h
        cases h
      · rw [if_neg hD] at h
        cases h
        rfl

/-- C7 witness: the append-only conclusion evaluated on the concrete run
`demo_wv` (version "25", install dir "/i", files "out" and "env"). -/
theorem c7_append_only_witness :
    demo_fs2.content "out" = demo_fs.content "out" ++
      ["wasi-sdk-path=" ++ "/i", "wasi-sdk-version=" ++ "25",
       "clang-path=" ++ ("/i" ++ "/bin/clang"),
       "sysroot-path=" ++ ("/i" ++ "/share/wasi-sysroot")] ∧
    demo_fs2.content "env" = demo_fs.content "env" ++
      ["WASI_SDK_PATH=" ++ "/i", "WASI_SDK_VERSION=" ++ "25",
       "CC=" ++ ("/i" ++ "/bin/clang") ++ " --sysroot=" ++ ("/i" ++ "/share/wasi-sysroot"),
       "CXX=" ++ ("/i" ++ "/bin/clang") ++ "++ --sysroot=" ++ ("/i" ++ "/share/wasi-sysroot")] ∧
    (∀ p, p ≠ "out" → p ≠ "env" → demo_fs2.content p = demo_fs.content p) :=
  c7_append_only.1 "25" "/i" "out" "env" demo_fs demo_fs2
    (by decide) (by decide) (by decide) rfl

end InstallWasiSdk

namespace InstallWasiSdk

/-- C9: `INPUT_VERSION` / `INPUT_INSTALL_DIR`, when present, override the
`--version` / `--install-dir` flags; when `INPUT_ADD_TO_PATH` lowercases to
"true" the output/env file paths become `GITHUB_PATH` / `GITHUB_ENV` with
the CLI flags as fallback, and otherwise the CLI flag values are used
unchanged. -/
theorem c9_env_overrides :
    (∀ env args v, env "INPUT_VERSION" = some v →
      (resolve_config env args).version = v) ∧
    (∀ env args, env "INPUT_VERSION" = none →
      (resolve_config env args).version = args.version) ∧
    (∀ env args v, env "INPUT_INSTALL_DIR" = some v →
      (resolve_config env args).install_dir = v) ∧
    (∀ env args, env "INPUT_INSTALL_DIR" = none →
      (resolve_config env args).install_dir = args.install_dir) ∧
    (∀ env args, pyLower ((env "INPUT_ADD_TO_PATH").getD "false") = "true" →
      (resolve_config env args).output_file = (env "GITHUB_PATH").or args.output_file ∧
      (resolve_config env args).env_file = (env "GITHUB_ENV").or args.env_file) ∧
    (∀ env args, pyLower ((env "INPUT_ADD_TO_PATH").getD "false") ≠ "true" →
      (resolve_config env args).output_file = args.output_file ∧
      (resolve_config env args).env_file = args.env_file) := by
  refine ⟨fun env args v h => ?_, fun env args h => ?_, fun env args v h => ?_,
    fun env args h => ?_, fun env args h => ⟨?_, ?_⟩, fun env args h => ⟨?_, ?_⟩⟩ <;>
    simp [resolve_config, h]

/-- C9 witness: a present `INPUT_VERSION` overriding the default flag. -/
theorem c9_env_overrides_witness :
    (resolve_config demo_env demo_args).version = "25" :=
  c9_env_overrides.1 demo_env demo_args "25" rfl

/-- C10: the wasi-sdk-version line written by the Output Writer carries the
raw module-global version ("25"), not the normalized version returned by
the resolver ("25.0"), because line 123 rebinds only main's local; and
calling `write_variables` with the module-global unbound (module imported,
`__main__` never run) raises `NameError` once a truthy output file is
given. -/
theorem c10_global_raw_version :
    (∃ vt, calculate_version_and_tag none "25" = some vt ∧ vt.1 = "25.0") ∧
    ("wasi-sdk-version=25" : String) ≠ "wasi-sdk-version=25.0" ∧
    (∀ fs, fs.isFile ("/i" ++ "/bin/clang") = true →
      fs.isDir ("/i" ++ "/share/wasi-sysroot") = true →
      ∃ fs', main_run none "x86_64" "Linux" "25" "/i" (some "out") none fs =
          some (Except.ok fs') ∧
        fs'.content "out" = fs.content "out" ++
          ["wasi-sdk-path=" ++ "/i", "wasi-sdk-version=" ++ "25",
           "clang-path=" ++ ("/i" ++ "/bin/clang"),
           "sysroot-path=" ++ ("/i" ++ "/share/wasi-sysroot")]) ∧
    (∀ fs, fs.isFile ("/i" ++ "/bin/clang") = true →
      fs.isDir ("/i" ++ "/share/wasi-sysroot") = true →
      ∃ fs2, write_variables none "/i" (some "out") none fs =
        Except.error (PyErr.nameError "version", fs2)) := by
  have hcvt : calculate_version_and_tag none "25" = some ("25.0", "wasi-sdk-25") := by
    decide
  refine ⟨⟨("25.0", "wasi-sdk-25"), hcvt, rfl⟩, by decide, ?_, ?_⟩
  · intro fs hF hD
    simp only [String.reduceAppend] at hF hD
    refine ⟨appendLine (appendLine (appendLine
        (appendLine fs "out" ("wasi-sdk-path=" ++ "/i"))
        "out" ("wasi-sdk-version=" ++ "25"))
        "out" ("clang-path=" ++ ("/i" ++ "/bin/clang")))
        "out" ("sysroot-path=" ++ ("/i" ++ "/share/wasi-sysroot")), ?_, ?_⟩
    · simp [main_run, write_variables, hcvt, hF, hD]
    · simp [appendLine]
  · intro fs hF hD
    simp only [String.reduceAppend] at hF hD
    refine ⟨appendLine fs "out" ("wasi-sdk-path=" ++ "/i"), ?_⟩
    simp [write_variables, hF, hD]

/-- C10 witness: the writer run on a concrete filesystem, showing the raw
version "25" in the appended line. -/
theorem c10_global_raw_version_witness :
    ∃ fs', main_run none "x86_64" "Linux" "25" "/i" (some "out") none demo_fs =
        some (Except.ok fs') ∧
      fs'.content "out" = demo_fs.content "out" ++
        ["wasi-sdk-path=" ++ "/i", "wasi-sdk-version=" ++ "25",
         "clang-path=" ++ ("/i" ++ "/bin/clang"),
         "sysroot-path=" ++ ("/i" ++ "/share/wasi-sysroot")] :=
  c10_global_raw_version.2.2.1 demo_fs rfl rfl

end InstallWasiSdk
